import Mathlib

/-!
Verification of `scripts/invoke-demo-bootstrap.py`.

The script is a linear operator tool: fetch a secret from a parameter
store, build a synthetic API-Gateway-v2 event, invoke a Lambda through
the AWS CLI, then parse and pretty-print the response.  We shallowly
embed the script as pure Lean functions:

* `Json` models the Python/JSON values the script manipulates (numbers
  restricted to integers; no claim involves floating point).
* `serialize` models `json.dumps(x)` (default separators, ensure_ascii),
  `pyDumpsIndent2` models `json.dumps(x, indent=2)`, and `pyLoads`
  models `json.loads` on the integer/escape subset used here.
* Python idioms are modelled explicitly: `pyStr` (f-string conversion),
  `truthy` (truth testing), `pyStrip` (`str.strip()`), `pyTake n`
  (`s[:n]`), `pyCommaFmt` (`format(n, ",.0f")` on an integer).
* The whole run is `runScript : ScriptInput → RunResult`: the inputs are
  what the environment hands the script (stdout of the two subprocess
  calls, exit code, response-file content, clock readings) and the
  result is the ordered list of observable effects (prints, file writes,
  subprocess launches, file reads) plus the process outcome (an explicit
  `sys.exit` code, or an uncaught exception, which exits nonzero).
-/

/-- JSON/Python values as the script sees them.  JSON numbers are
restricted to integers: every number in the script and in the claims is
integral, and Python prints integers without a decimal point. -/
inductive Json where
  | null
  | bool (b : Bool)
  | num (n : Int)
  | str (s : String)
  | arr (xs : List Json)
  | obj (fields : List (String × Json))

/-- The double-quote character, kept out of string literals. -/
def quoteChar : Char := Char.ofNat 34

/-- The backslash character. -/
def backslashChar : Char := Char.ofNat 92

/-- The single-quote character. -/
def singleQuoteChar : Char := Char.ofNat 39

/-- Lower-case hexadecimal digit, as CPython emits in \uXXXX escapes. -/
def hexDigitChar (n : Nat) : Char :=
  if n < 10 then Char.ofNat (48 + n) else Char.ofNat (87 + n)

/-- Four lower-case hex digits. -/
def hex4 (n : Nat) : String :=
  String.mk [hexDigitChar (n / 4096 % 16), hexDigitChar (n / 256 % 16),
             hexDigitChar (n / 16 % 16), hexDigitChar (n % 16)]

/-- How `json.dumps` (ensure_ascii=True, the default) escapes one
character inside a string: printable ASCII other than quote and
backslash is kept, the usual short escapes are used, everything else
becomes \uXXXX (with a surrogate pair beyond the BMP). -/
def escChar (c : Char) : String :=
  if c = quoteChar then String.mk [backslashChar, quoteChar]
  else if c = backslashChar then String.mk [backslashChar, backslashChar]
  else if c = Char.ofNat 10 then String.mk [backslashChar, 'n']
  else if c = Char.ofNat 9 then String.mk [backslashChar, 't']
  else if c = Char.ofNat 13 then String.mk [backslashChar, 'r']
  else if c = Char.ofNat 8 then String.mk [backslashChar, 'b']
  else if c = Char.ofNat 12 then String.mk [backslashChar, 'f']
  else if 32 ≤ c.toNat && c.toNat ≤ 126 then String.singleton c
  else if c.toNat < 65536 then String.singleton backslashChar ++ "u" ++ hex4 c.toNat
  else
    let v := c.toNat - 65536
    String.singleton backslashChar ++ "u" ++ hex4 (55296 + v / 1024) ++
      String.singleton backslashChar ++ "u" ++ hex4 (56320 + v % 1024)

/-- Model of the `json.dumps` rendering of a string (quoted, escaped). -/
def quoteStr (s : String) : String :=
  String.singleton quoteChar ++ String.join (s.data.map escChar) ++ String.singleton quoteChar

mutual
/-- Model of `json.dumps(x)` with the default separators (", " and ": "). -/
def serialize : Json → String
  | .null => "null"
  | .bool true => "true"
  | .bool false => "false"
  | .num n => toString n
  | .str s => quoteStr s
  | .arr xs => "[" ++ String.intercalate ", " (serializeList xs) ++ "]"
  | .obj fs => "\x7b" ++ String.intercalate ", " (serializeFields fs) ++ "\x7d"

/-- Elements of an array, each rendered by `serialize`. -/
def serializeList : List Json → List String
  | [] => []
  | x :: xs => serialize x :: serializeList xs

/-- Members of an object, rendered `"key": value`. -/
def serializeFields : List (String × Json) → List String
  | [] => []
  | (k, v) :: fs => (quoteStr k ++ ": " ++ serialize v) :: serializeFields fs
end

/-- Indentation prefix at nesting depth `d` for `indent=2`. -/
def pad (d : Nat) : String := String.mk (List.replicate (2 * d) ' ')

mutual
/-- Model of `json.dumps(x, indent=2)` at nesting depth `d` (with `indent`,
CPython switches the item separator to "," followed by a newline and
indentation, and keeps ": " for keys; empty containers stay on one
line). -/
def serializeIndent : Json → Nat → String
  | .null, _ => "null"
  | .bool true, _ => "true"
  | .bool false, _ => "false"
  | .num n, _ => toString n
  | .str s, _ => quoteStr s
  | .arr [], _ => "[]"
  | .obj [], _ => "\x7b\x7d"
  | .arr xs, d =>
      "[\n" ++ String.intercalate ",\n" (serializeIndentList xs (d + 1)) ++
        "\n" ++ pad d ++ "]"
  | .obj fs, d =>
      "\x7b\n" ++ String.intercalate ",\n" (serializeIndentFields fs (d + 1)) ++
        "\n" ++ pad d ++ "\x7d"

/-- Array elements under `indent=2`. -/
def serializeIndentList : List Json → Nat → List String
  | [], _ => []
  | x :: xs, d => (pad d ++ serializeIndent x d) :: serializeIndentList xs d

/-- Object members under `indent=2`. -/
def serializeIndentFields : List (String × Json) → Nat → List String
  | [], _ => []
  | (k, v) :: fs, d =>
      (pad d ++ quoteStr k ++ ": " ++ serializeIndent v d) :: serializeIndentFields fs d
end

/-- Shorthand for `json.dumps(x, indent=2)`, as used on the failure branch. -/
def pyDumpsIndent2 (j : Json) : String := serializeIndent j 0

mutual
/-- Python dict repr of the values we model, used for f-string
interpolation of containers (str() of a container is its repr; escape
subtleties of repr are irrelevant here — no claim prints a container). -/
def pyRepr : Json → String
  | .null => "None"
  | .bool true => "True"
  | .bool false => "False"
  | .num n => toString n
  | .str s => String.singleton singleQuoteChar ++ s ++ String.singleton singleQuoteChar
  | .arr xs => "[" ++ String.intercalate ", " (pyReprList xs) ++ "]"
  | .obj fs => "\x7b" ++ String.intercalate ", " (pyReprFields fs) ++ "\x7d"

def pyReprList : List Json → List String
  | [] => []
  | x :: xs => pyRepr x :: pyReprList xs

def pyReprFields : List (String × Json) → List String
  | [] => []
  | (k, v) :: fs =>
      (String.singleton singleQuoteChar ++ k ++ String.singleton singleQuoteChar ++ ": " ++ pyRepr v)
        :: pyReprFields fs
end

/-- Python `str(x)` / f-string conversion of a decoded JSON value. -/
def pyStr : Json → String
  | .str s => s
  | j => pyRepr j

/-- Python truth testing (`if x:`) on a decoded JSON value. -/
def truthy : Json → Bool
  | .null => false
  | .bool b => b
  | .num n => n != 0
  | .str s => s != ""
  | .arr xs => !xs.isEmpty
  | .obj fs => !fs.isEmpty

/-- First-match association lookup on object members (the script never
builds or reads objects with duplicate keys). -/
def jLookup : List (String × Json) → String → Option Json
  | [], _ => none
  | (k, v) :: rest, key => if k = key then some v else jLookup rest key

/-- Model of `d[key]` / `d.get(key)` on an object. -/
def jGet (j : Json) (key : String) : Option Json :=
  match j with
  | .obj fs => jLookup fs key
  | _ => none

/-- Model of `d.get(key, default)` on an object. -/
def jGetD (j : Json) (key : String) (dflt : Json) : Json :=
  match jGet j key with
  | some v => v
  | none => dflt

/-- Python `s[:n]` on a string (a prefix of at most `n` characters). -/
def pyTake (n : Nat) (s : String) : String := String.mk (s.data.take n)

/-- The whitespace set of `str.strip()` (ASCII part; the script only
strips subprocess stdout). -/
def pyWs (c : Char) : Bool :=
  c = ' ' || c = Char.ofNat 9 || c = Char.ofNat 10 || c = Char.ofNat 13 ||
    c = Char.ofNat 11 || c = Char.ofNat 12

/-- Python `s.strip()`. -/
def pyStrip (s : String) : String :=
  String.mk (((s.data.dropWhile pyWs).reverse.dropWhile pyWs).reverse)

/-- Digits of `s` grouped in threes from the right with commas. -/
def chunk3 : List Char → List (List Char)
  | [] => []
  | a :: b :: c :: rest => [a, b, c] :: chunk3 rest
  | xs => [xs]

/-- Insert thousands separators into a digit string. -/
def commaGroup (s : String) : String :=
  String.mk (List.intercalate [','] (chunk3 s.data.reverse)).reverse

/-- Python `format(n, ",.0f")` on an integer: sign, then the digits
with thousands separators and no decimal point. -/
def pyCommaFmt (n : Int) : String :=
  (if n < 0 then "-" else "") ++ commaGroup (toString n.natAbs)

/-- JSON whitespace accepted by `json.loads` between tokens. -/
def jsonWs (c : Char) : Bool :=
  c = ' ' || c = Char.ofNat 9 || c = Char.ofNat 10 || c = Char.ofNat 13

/-- Skip JSON whitespace. -/
def skipWs (cs : List Char) : List Char := cs.dropWhile jsonWs

/-- Value of a hexadecimal digit. -/
def hexVal (c : Char) : Option Nat :=
  if 48 ≤ c.toNat && c.toNat ≤ 57 then some (c.toNat - 48)
  else if 97 ≤ c.toNat && c.toNat ≤ 102 then some (c.toNat - 87)
  else if 65 ≤ c.toNat && c.toNat ≤ 70 then some (c.toNat - 55)
  else none

/-- Decimal digit predicate. -/
def isDig (c : Char) : Bool := 48 ≤ c.toNat && c.toNat ≤ 57

/-- Digit list (most significant first) to a natural number. -/
def digitsToNat (ds : List Char) : Nat :=
  ds.foldl (fun acc c => 10 * acc + (c.toNat - 48)) 0

/-- Parse the rest of a JSON string after the opening quote, handling
the short escapes and non-surrogate \uXXXX (the script never feeds the
parser astral-plane escapes).  Returns the string and the remaining
input.  Fuelled so that evaluation is by structural recursion. -/
def parseStringRest : Nat → List Char → Option (String × List Char)
  | 0, _ => none
  | _ + 1, [] => none
  | fuel + 1, c :: rest =>
    if c = quoteChar then some ("", rest)
    else if c = backslashChar then
      match rest with
      | [] => none
      | e :: rest2 =>
        let esc :=
          if e = quoteChar then some (quoteChar, rest2)
          else if e = backslashChar then some (backslashChar, rest2)
          else if e = '/' then some ('/', rest2)
          else if e = 'n' then some (Char.ofNat 10, rest2)
          else if e = 't' then some (Char.ofNat 9, rest2)
          else if e = 'r' then some (Char.ofNat 13, rest2)
          else if e = 'b' then some (Char.ofNat 8, rest2)
          else if e = 'f' then some (Char.ofNat 12, rest2)
          else if e = 'u' then
            match rest2 with
            | a :: b :: c2 :: d :: rest3 =>
              match hexVal a, hexVal b, hexVal c2, hexVal d with
              | some x, some y, some z, some w =>
                let v := 4096 * x + 256 * y + 16 * z + w
                if 55296 ≤ v && v < 57344 then none
                else some (Char.ofNat v, rest3)
              | _, _, _, _ => none
            | _ => none
          else none
        match esc with
        | some (ch, r) =>
          match parseStringRest fuel r with
          | some (s, r2) => some (String.singleton ch ++ s, r2)
          | none => none
        | none => none
    else if c.toNat < 32 then none
    else
      match parseStringRest fuel rest with
      | some (s, r2) => some (String.singleton c ++ s, r2)
      | none => none

/-- Parse a JSON number.  Integers only: the script and all claims use
integral numbers, and a fraction or exponent makes this model reject
where CPython would build a float. -/
def parseNumber (cs : List Char) : Option (Json × List Char) :=
  let neg := cs.head? = some '-'
  let cs1 := if neg then cs.tail else cs
  let ds := cs1.takeWhile isDig
  let rest := cs1.dropWhile isDig
  if ds.isEmpty then none
  else if 1 < ds.length && ds.head? = some '0' then none
  else
    match rest with
    | '.' :: _ => none
    | 'e' :: _ => none
    | 'E' :: _ => none
    | _ =>
      let n : Int := Int.ofNat (digitsToNat ds)
      some (.num (if neg then -n else n), rest)

mutual
/-- Parse one JSON value (after skipping leading whitespace). -/
def parseValue : Nat → List Char → Option (Json × List Char)
  | 0, _ => none
  | fuel + 1, cs =>
    match skipWs cs with
    | [] => none
    | c :: rest =>
      if c = quoteChar then
        match parseStringRest (rest.length + 1) rest with
        | some (s, r) => some (.str s, r)
        | none => none
      else if c = '-' || isDig c then parseNumber (c :: rest)
      else if c = 't' then
        match rest with
        | 'r' :: 'u' :: 'e' :: r => some (.bool true, r)
        | _ => none
      else if c = 'f' then
        match rest with
        | 'a' :: 'l' :: 's' :: 'e' :: r => some (.bool false, r)
        | _ => none
      else if c = 'n' then
        match rest with
        | 'u' :: 'l' :: 'l' :: r => some (.null, r)
        | _ => none
      else if c = '[' then
        match skipWs rest with
        | ']' :: r => some (.arr [], r)
        | _ => parseItems fuel rest
      else if c = '\x7b' then
        match skipWs rest with
        | '\x7d' :: r => some (.obj [], r)
        | _ => parseMembers fuel rest
      else none

/-- Parse the elements of a non-empty JSON array and the closing
bracket. -/
def parseItems : Nat → List Char → Option (Json × List Char)
  | 0, _ => none
  | fuel + 1, cs =>
    match parseValue fuel cs with
    | none => none
    | some (v, r) =>
      match skipWs r with
      | ',' :: r2 =>
        match parseItems fuel r2 with
        | some (.arr vs, r3) => some (.arr (v :: vs), r3)
        | _ => none
      | ']' :: r2 => some (.arr [v], r2)
      | _ => none

/-- Parse the members of a non-empty JSON object and the closing
brace. -/
def parseMembers : Nat → List Char → Option (Json × List Char)
  | 0, _ => none
  | fuel + 1, cs =>
    match skipWs cs with
    | c :: rest =>
      if c = quoteChar then
        match parseStringRest (rest.length + 1) rest with
        | some (k, r) =>
          match skipWs r with
          | ':' :: r2 =>
            match parseValue fuel r2 with
            | none => none
            | some (v, r3) =>
              match skipWs r3 with
              | ',' :: r4 =>
                match parseMembers fuel r4 with
                | some (.obj ms, r5) => some (.obj ((k, v) :: ms), r5)
                | _ => none
              | '\x7d' :: r4 => some (.obj [(k, v)], r4)
              | _ => none
          | _ => none
        | none => none
      else none
    | [] => none

end

/-- Model of `json.loads(s)`: parse one value and require only whitespace after
it. -/
def pyLoads (s : String) : Option Json :=
  match parseValue (s.length + 1) s.data with
  | some (j, rest) => if (skipWs rest).isEmpty then some j else none
  | none => none

/-- The three-URL body object (lines 37-41 of the script). -/
def bodyObj : Json := .obj [
  ("propertyServiceUrl", .str "https://z32oarlcp7.execute-api.us-east-1.amazonaws.com"),
  ("mortgageServiceUrl", .str "https://el0slr8sg5.execute-api.us-east-1.amazonaws.com"),
  ("paymentServiceUrl", .str "https://cmwxqd18ga.execute-api.us-east-1.amazonaws.com")]

/-- The synthetic API-Gateway-v2 event (lines 43-72), as a function of
the stripped secret and the clock readings the script samples. -/
def buildEvent (secret : String) (timeT : Nat) (timeStr : String) (timeEpoch : Nat) : Json :=
  .obj [
    ("version", .str "2.0"),
    ("routeKey", .str "ANY /admin/\x7bproxy+\x7d"),
    ("rawPath", .str "/admin/demo-bootstrap"),
    ("rawQueryString", .str ""),
    ("headers", .obj [
      ("content-type", .str "application/json"),
      ("x-bootstrap-secret", .str secret)]),
    ("requestContext", .obj [
      ("accountId", .str "anonymous"),
      ("apiId", .str "1oi4sd5b4i"),
      ("domainName", .str "1oi4sd5b4i.execute-api.us-east-1.amazonaws.com"),
      ("domainPrefix", .str "1oi4sd5b4i"),
      ("http", .obj [
        ("method", .str "POST"),
        ("path", .str "/admin/demo-bootstrap"),
        ("protocol", .str "HTTP/1.1"),
        ("sourceIp", .str "127.0.0.1"),
        ("userAgent", .str "test-script")]),
      ("requestId", .str ("test-" ++ toString timeT)),
      ("routeKey", .str "ANY /admin/\x7bproxy+\x7d"),
      ("stage", .str "$default"),
      ("time", .str timeStr),
      ("timeEpoch", .num (Int.ofNat timeEpoch))]),
    ("body", .str (serialize bodyObj)),
    ("isBase64Encoded", .bool false)]

/-- One actor line (line 140-142): name, email, role, first 8 id
characters.  Accessing a missing key or slicing a non-string id raises,
in the same order CPython evaluates the f-string. -/
def renderActorLine (actor : Json) : Except String String :=
  match actor with
  | .obj _ =>
    match jGet actor "name" with
    | none => .error "KeyError: name"
    | some nm =>
      match jGet actor "email" with
      | none => .error "KeyError: email"
      | some em =>
        match jGet actor "role" with
        | none => .error "KeyError: role"
        | some rl =>
          match jGet actor "id" with
          | none => .error "KeyError: id"
          | some (.str i) =>
            .ok ("     " ++ pyStr nm ++ " (" ++ pyStr em ++ ") — " ++ pyStr rl ++
              " — " ++ pyTake 8 i ++ "...")
          | some _ => .error "TypeError: unsliceable id"
  | _ => .error "AttributeError: not a mapping"

/-- One organization line (line 146): name, type, first 8 id
characters. -/
def renderOrgLine (org : Json) : Except String String :=
  match org with
  | .obj _ =>
    match jGet org "name" with
    | none => .error "KeyError: name"
    | some nm =>
      match jGet org "type" with
      | none => .error "KeyError: type"
      | some tp =>
        match jGet org "id" with
        | none => .error "KeyError: id"
        | some (.str i) =>
          .ok ("     " ++ pyStr nm ++ " (" ++ pyStr tp ++ ") — " ++ pyTake 8 i ++ "...")
        | some _ => .error "TypeError: unsliceable id"
  | _ => .error "AttributeError: not a mapping"

/-- One step line (lines 157-159): checkmark, step name, and a detail
suffix exactly when `s.get("detail")` is truthy. -/
def renderStepLine (s : Json) : Except String String :=
  match s with
  | .obj _ =>
    let detailVal := jGetD s "detail" .null
    let detail := if truthy detailVal then " — " ++ pyStr detailVal else ""
    match jGet s "step" with
    | some st => .ok ("     ✅ " ++ pyStr st ++ detail)
    | none => .error "KeyError: step"
  | _ => .error "AttributeError: not a mapping"

/-- Render each value of a dict's `.items()` in insertion order,
stopping (with the exception) at the first failing element; lines
printed before the failure are kept. -/
def renderPairs (f : Json → Except String String) :
    List (String × Json) → List String × Option String
  | [] => ([], none)
  | (_, v) :: rest =>
    match f v with
    | .error e => ([], some e)
    | .ok line =>
      match renderPairs f rest with
      | (ls, ex) => (line :: ls, ex)

/-- Render each element of a list, stopping at the first failure. -/
def renderList (f : Json → Except String String) :
    List Json → List String × Option String
  | [] => ([], none)
  | v :: rest =>
    match f v with
    | .error e => ([], some e)
    | .ok line =>
      match renderList f rest with
      | (ls, ex) => (line :: ls, ex)

/-- The steps section (lines 155-159): a header with `len(steps)`, then
one line per step.  `len` also works on a dict or string, but iterating
a non-empty one crashes at the first element access. -/
def renderSteps (steps : Json) : List String × Option String :=
  match steps with
  | .arr xs =>
    match renderList renderStepLine xs with
    | (ls, ex) => (("   Steps (" ++ toString xs.length ++ "):") :: ls, ex)
  | .obj fs =>
    (["   Steps (" ++ toString fs.length ++ "):"],
      if fs.isEmpty then none else some "AttributeError: not a mapping")
  | .str s =>
    (["   Steps (" ++ toString s.length ++ "):"],
      if s.isEmpty then none else some "AttributeError: not a mapping")
  | _ => ([], some "TypeError: len")

/-- The success branch of the renderer (lines 134-159), given the
decoded body (an object, since `body.get` already succeeded). -/
def renderSuccess (body : Json) : List String × Option String :=
  let l0 := ["✅ SUCCESS"]
  match jGet body "tenantId" with
  | none => (l0, some "KeyError: tenantId")
  | some t =>
    let l1 := l0 ++ ["   Tenant: " ++ pyStr t, "", "   Actors:"]
    match jGetD body "actors" (.obj []) with
    | .obj afs =>
      match renderPairs renderActorLine afs with
      | (als, some e) => (l1 ++ als, some e)
      | (als, none) =>
        let l2 := l1 ++ als ++ ["", "   Organizations:"]
        match jGetD body "organizations" (.obj []) with
        | .obj ofs =>
          match renderPairs renderOrgLine ofs with
          | (ols, some e) => (l2 ++ ols, some e)
          | (ols, none) =>
            let l3 := l2 ++ ols ++ [""]
            let prop := jGetD body "property" (.obj [])
            match prop with
            | .obj _ =>
              match jGetD prop "price" (.num 0) with
              | .num price =>
                let l4 := l3 ++ ["   Property: " ++ pyStr (jGetD prop "title" .null) ++
                  " / " ++ pyStr (jGetD prop "unitNumber" .null) ++ " — ₦" ++ pyCommaFmt price]
                let pm := jGetD body "paymentMethod" (.obj [])
                match pm with
                | .obj _ =>
                  let l5 := l4 ++ ["   Payment Method: " ++ pyStr (jGetD pm "name" .null) ++
                    " (" ++ pyStr (jGetD pm "phases" .null) ++ " phases)", ""]
                  match renderSteps (jGetD body "steps" (.arr [])) with
                  | (sls, sex) => (l5 ++ sls, sex)
                | _ => (l4, some "AttributeError: get")
              | _ => (l3, some "TypeError: unsupported format string")
            | _ => (l3, some "AttributeError: get")
        | _ => (l2, some "AttributeError: items")
    | _ => (l1, some "AttributeError: items")

/-- Rendering the decoded body (lines 134-162): the success branch when
`body.get("success")` is truthy, otherwise the failure marker plus the
indented JSON truncated to 3000 characters.  A non-object body crashes
at `body.get`. -/
def renderBody (body : Json) : List String × Option String :=
  match body with
  | .obj _ =>
    if truthy (jGetD body "success" .null) then renderSuccess body
    else (["❌ FAILED", pyTake 3000 (pyDumpsIndent2 body)], none)
  | _ => ([], some "AttributeError: get")

/-- Observable effects of a run, in order. -/
inductive Effect where
  | print (s : String)
  | writeFile (path content : String)
  | runSecretFetch
  | runInvoke
  | readFile (path : String)

/-- Everything the environment hands the script during one run: the
stdout of the SSM call, the clock readings, and the result of the
Lambda-invoke call (exit code, stdout, stderr, the contents of the
response file, and the formatted elapsed time). -/
structure ScriptInput where
  secretStdout : String
  timeT : Nat
  timeStr : String
  timeEpoch : Nat
  elapsedStr : String
  invokeExit : Int
  invokeStdout : String
  invokeStderr : String
  responseFile : Option String

/-- How the process ends: an explicit exit (`sys.exit` or falling off
the end, which exits 0), or an uncaught exception (CPython then exits
with code 1). -/
inductive Outcome where
  | exited (code : Nat)
  | crashed (msg : String)

/-- The process exit code an outcome produces. -/
def Outcome.code : Outcome → Nat
  | .exited n => n
  | .crashed _ => 1

/-- A run: the ordered effects and the outcome. -/
structure RunResult where
  effects : List Effect
  outcome : Outcome

/-- Fixed payload file path (line 74). -/
def payloadPath : String := "/tmp/demo-bootstrap-payload.json"

/-- Fixed response file path (line 75). -/
def responsePath : String := "/tmp/demo-bootstrap-response.json"

/-- Effects of the secret-fetch phase (lines 13-29). -/
def fetchEffects : List Effect :=
  [.print "🔑 Fetching bootstrap secret from SSM...", .runSecretFetch]

/-- The operator-confirmation preview of the secret (line 34): only the
first five characters, then an ellipsis. -/
def secretPreviewLine (secret : String) : String :=
  "   Got secret: " ++ pyTake 5 secret ++ "..."

/-- Effects from writing the payload through printing the elapsed time
(lines 77-106). -/
def invokeEffects (secret : String) (timeT : Nat) (timeStr : String)
    (timeEpoch : Nat) (elapsedStr : String) : List Effect :=
  [.writeFile payloadPath (serialize (buildEvent secret timeT timeStr timeEpoch)),
   .print ("📦 Payload written to " ++ payloadPath),
   .print "",
   .print "🚀 Invoking Lambda directly (bypassing API Gateway 30s limit)...",
   .print "   Function: qshelter-user-service-staging-api",
   .print "",
   .runInvoke,
   .print ("⏱️  Lambda invocation took " ++ elapsedStr ++ "s")]

/-- The invoke-metadata inspection (lines 112-116): nothing on empty
stripped stdout; otherwise `json.loads` (an uncaught decode error on
bad JSON), then a non-fatal diagnostic when `FunctionError` is
truthy. -/
def metaPrints (invokeMeta : String) : Except String (List Effect) :=
  if invokeMeta = "" then .ok []
  else
    match pyLoads invokeMeta with
    | none => .error "json.decoder.JSONDecodeError"
    | some meta =>
      match meta with
      | .obj _ =>
        let fe := jGetD meta "FunctionError" .null
        if truthy fe then
          .ok [.print ("❌ Lambda function error: " ++ pyStr fe)]
        else .ok []
      | _ => .error "AttributeError: get"

/-- The raw-body diagnostic (line 131), truncated to 3000
characters. -/
def rawBodyPrint (bodyStr : String) : Effect :=
  .print ("Raw body: " ++ pyTake 3000 bodyStr)

/-- Everything after the AWS CLI exit-code check (lines 112-162):
metadata inspection, response-file read and outer decode, body decode,
and rendering.  Independent of the secret. -/
def afterInvoke (invokeStdout : String) (responseFile : Option String) :
    List Effect × Outcome :=
  match metaPrints (pyStrip invokeStdout) with
  | .error e => ([], .crashed e)
  | .ok em =>
    let e0 := em ++ [.print "", .print "--- Response ---", .readFile responsePath]
    match responseFile with
    | none => (e0, .crashed "FileNotFoundError")
    | some content =>
      match pyLoads content with
      | none => (e0, .crashed "json.decoder.JSONDecodeError")
      | some resp =>
        match resp with
        | .obj _ =>
          let e1 := e0 ++ [.print ("HTTP Status: " ++ pyStr (jGetD resp "statusCode" (.str "N/A")))]
          match jGetD resp "body" (.str "\x7b\x7d") with
          | .str bodyStr =>
            (match pyLoads bodyStr with
             | none => (e1 ++ [rawBodyPrint bodyStr], .exited 1)
             | some body =>
               match renderBody body with
               | (lines, none) => (e1 ++ lines.map .print, .exited 0)
               | (lines, some m) => (e1 ++ lines.map .print, .crashed m))
          | .arr xs =>
            (e1 ++ [.print ("Raw body: " ++ pyRepr (.arr (xs.take 3000)))], .exited 1)
          | _ => (e1, .crashed "TypeError: unsliceable body")
        | _ => (e0, .crashed "AttributeError: get")

/-- The whole run (the script top to bottom) as a function of what the
environment provides. -/
def runScript (inp : ScriptInput) : RunResult :=
  let secret := pyStrip inp.secretStdout
  if secret = "" then
    ⟨fetchEffects ++ [.print "❌ Failed to get bootstrap secret"], .exited 1⟩
  else
    let e1 := fetchEffects ++ [.print (secretPreviewLine secret)] ++
      invokeEffects secret inp.timeT inp.timeStr inp.timeEpoch inp.elapsedStr
    if inp.invokeExit ≠ 0 then
      ⟨e1 ++ [.print ("❌ AWS CLI error: " ++ inp.invokeStderr)], .exited 1⟩
    else
      let r := afterInvoke inp.invokeStdout inp.responseFile
      ⟨e1 ++ r.1, r.2⟩

/-- The console output of a run: the printed strings, in order. -/
def printsOf (r : RunResult) : List String :=
  r.effects.filterMap fun e =>
    match e with
    | .print s => some s
    | _ => none

/-- Does `hay` start with `pat`? -/
def startsWithList : List Char → List Char → Bool
  | [], _ => true
  | _ :: _, [] => false
  | p :: ps, c :: cs => p = c && startsWithList ps cs

/-- Does `pat` occur inside the character list? -/
def containsSubList (pat : List Char) : List Char → Bool
  | [] => startsWithList pat []
  | c :: cs => startsWithList pat (c :: cs) || containsSubList pat cs

/-- Substring occurrence test used to state claims about printed
lines. -/
def containsSub (hay pat : String) : Bool := containsSubList pat.data hay.data

/-- The decoded response body of claim C1, as a `Json` value. -/
def c1Body : Json := .obj [
  ("success", .bool true),
  ("tenantId", .str "t-1"),
  ("actors", .obj []),
  ("organizations", .obj []),
  ("property", .obj [("title", .str "Flat A"), ("unitNumber", .str "12B"),
    ("price", .num 500000)]),
  ("paymentMethod", .obj [("name", .str "Installment"), ("phases", .num 3)]),
  ("steps", .arr [.obj [("step", .str "create tenant")]])]

/-- The response body text of claim C1, exactly as the claim writes
it. -/
def c1Text : String :=
  "\x7b\"success\": true, \"tenantId\": \"t-1\", \"actors\": \x7b\x7d, " ++
  "\"organizations\": \x7b\x7d, \"property\": \x7b\"title\":\"Flat A\"," ++
  "\"unitNumber\":\"12B\",\"price\":500000\x7d, \"paymentMethod\": " ++
  "\x7b\"name\":\"Installment\",\"phases\":3\x7d, \"steps\": " ++
  "[\x7b\"step\":\"create tenant\"\x7d]\x7d"

/-- The business-failure body of claim C6. -/
def c6Body : Json := .obj [("success", .bool false), ("error", .str "boom")]

/-- A success body with one unnumbered step, used against claim C9. -/
def c9Body : Json := .obj [
  ("success", .bool true),
  ("tenantId", .str "t-1"),
  ("steps", .arr [.obj [("step", .str "create tenant")]])]

/-- A step record as the Lambda reports it: a step name and an optional
detail string. -/
def mkStep : String × Option String → Json
  | (n, none) => .obj [("step", .str n)]
  | (n, some d) => .obj [("step", .str n), ("detail", .str d)]

/-- The step line a name/detail pair renders to. -/
def stepLineOf (p : String × Option String) : String :=
  "     ✅ " ++ p.1 ++ (match p.2 with | some d => " — " ++ d | none => "")

set_option maxRecDepth 20000 in
/-- C1: decoding the claim's response-body text yields `c1Body`, and
rendering it on the success branch prints, in order: the success
marker, the line "   Tenant: t-1" (containing "Tenant: t-1"), empty
actor and organization sections, the property line
"   Property: Flat A / 12B — ₦500,000" (containing "Flat A / 12B" and
the thousands-separated "500,000"), the payment-method line, and a
steps section listing exactly the single step "create tenant" with no
detail suffix — with no exception. -/
theorem claim_c1 :
    pyLoads c1Text = some c1Body ∧
    renderBody c1Body =
      (["✅ SUCCESS", "   Tenant: t-1", "", "   Actors:", "", "   Organizations:", "",
        "   Property: Flat A / 12B — ₦500,000", "   Payment Method: Installment (3 phases)", "",
        "   Steps (1):", "     ✅ create tenant"], none) ∧
    containsSub "   Tenant: t-1" "Tenant: t-1" = true ∧
    containsSub "   Property: Flat A / 12B — ₦500,000" "Flat A / 12B" = true ∧
    containsSub "   Property: Flat A / 12B — ₦500,000" "500,000" = true := by
  refine ⟨by rfl, by rfl, by rfl, by rfl, by rfl⟩

/-- C2: for any SSM stdout whose stripped value is non-empty, the
envelope's header mapping binds "x-bootstrap-secret" to exactly that
stripped secret and "content-type" to "application/json". -/
theorem claim_c2 (stdout : String) (h : pyStrip stdout ≠ "")
    (tT tE : Nat) (tS : String) :
    jGet (jGetD (buildEvent (pyStrip stdout) tT tS tE) "headers" .null) "x-bootstrap-secret"
        = some (.str (pyStrip stdout)) ∧
    jGet (jGetD (buildEvent (pyStrip stdout) tT tS tE) "headers" .null) "content-type"
        = some (.str "application/json") := by
  exact ⟨rfl, rfl⟩

/-- Witness for C2 at a concrete stdout. -/
theorem claim_c2_witness :
    pyStrip " topsecret " ≠ "" ∧
    (jGet (jGetD (buildEvent (pyStrip " topsecret ") 0 "t" 0) "headers" .null) "x-bootstrap-secret"
        = some (.str (pyStrip " topsecret ")) ∧
     jGet (jGetD (buildEvent (pyStrip " topsecret ") 0 "t" 0) "headers" .null) "content-type"
        = some (.str "application/json")) :=
  ⟨by decide, claim_c2 " topsecret " (by decide) 0 0 "t"⟩

set_option maxRecDepth 20000 in
/-- C3: for every run the envelope's body field is the string
`serialize bodyObj` (JSON text, not a JSON value), and decoding that
string gives back exactly the three-URL object. -/
theorem claim_c3 (secret : String) (tT tE : Nat) (tS : String) :
    jGet (buildEvent secret tT tS tE) "body" = some (.str (serialize bodyObj)) ∧
    pyLoads (serialize bodyObj) = some bodyObj := by
  exact ⟨rfl, by rfl⟩

/-- C4: when the stripped secret-fetch stdout is empty, the run prints
the failure diagnostic and exits 1; the full effect list shows no
envelope write and no invocation. -/
theorem claim_c4 (inp : ScriptInput) (h : pyStrip inp.secretStdout = "") :
    runScript inp =
      ⟨[.print "🔑 Fetching bootstrap secret from SSM...", .runSecretFetch,
        .print "❌ Failed to get bootstrap secret"], .exited 1⟩ ∧
    (runScript inp).outcome = .exited 1 ∧
    Effect.runInvoke ∉ (runScript inp).effects ∧
    (∀ p c, Effect.writeFile p c ∉ (runScript inp).effects) := by
  have he : runScript inp =
      ⟨[.print "🔑 Fetching bootstrap secret from SSM...", .runSecretFetch,
        .print "❌ Failed to get bootstrap secret"], .exited 1⟩ := by
    simp [runScript, h, fetchEffects]
  refine ⟨he, by rw [he], by rw [he]; simp, by intro p c; rw [he]; simp⟩

/-- Witness for C4 at whitespace-only stdout. -/
theorem claim_c4_witness :
    pyStrip "  \n" = "" ∧
    (runScript ⟨"  \n", 0, "t", 0, "1.0", 0, "", "", none⟩).outcome = .exited 1 :=
  ⟨by decide, (claim_c4 ⟨"  \n", 0, "t", 0, "1.0", 0, "", "", none⟩ (by decide)).2.1⟩

/-- C5: in any run that reaches response parsing (non-empty secret,
CLI exit 0, metadata stage passes), if the response file's outer JSON
decodes to an object whose "body" member is a string that is not valid
JSON, the run prints the raw body truncated to 3000 characters as its
last effect (so no rendering happens) and exits 1. -/
theorem claim_c5 (inp : ScriptInput) (em : List Effect)
    (content bodyStr : String) (fs : List (String × Json))
    (hsec : pyStrip inp.secretStdout ≠ "")
    (hexit : inp.invokeExit = 0)
    (hmeta : metaPrints (pyStrip inp.invokeStdout) = .ok em)
    (hfile : inp.responseFile = some content)
    (hresp : pyLoads content = some (.obj fs))
    (hbody : jLookup fs "body" = some (.str bodyStr))
    (hbad : pyLoads bodyStr = none) :
    (runScript inp).outcome = .exited 1 ∧
    (runScript inp).effects =
      fetchEffects ++ [.print (secretPreviewLine (pyStrip inp.secretStdout))] ++
      invokeEffects (pyStrip inp.secretStdout) inp.timeT inp.timeStr inp.timeEpoch inp.elapsedStr ++
      (em ++ [.print "", .print "--- Response ---", .readFile responsePath,
        .print ("HTTP Status: " ++ pyStr (jGetD (.obj fs) "statusCode" (.str "N/A"))),
        rawBodyPrint bodyStr]) ∧
    rawBodyPrint bodyStr = .print ("Raw body: " ++ pyTake 3000 bodyStr) := by
  have ha : afterInvoke inp.invokeStdout inp.responseFile =
      (em ++ [.print "", .print "--- Response ---", .readFile responsePath,
        .print ("HTTP Status: " ++ pyStr (jGetD (.obj fs) "statusCode" (.str "N/A"))),
        rawBodyPrint bodyStr], .exited 1) := by
    have hb : jGetD (Json.obj fs) "body" (.str "\x7b\x7d") = .str bodyStr := by
      rw [jGetD, jGet, hbody]
    simp only [afterInvoke, hmeta, hfile, hresp, hb, hbad]
    simp
  rw [runScript]
  simp only [if_neg hsec, hexit]
  norm_num
  rw [ha]
  exact ⟨rfl, by simp, rfl⟩

/-- Witness for C5 with a concrete undecodable body "oops". -/
theorem claim_c5_witness :
    (runScript ⟨"abcdef", 0, "t", 0, "1.0", 0, "", "",
      some (serialize (.obj [("statusCode", .num 200), ("body", .str "oops")]))⟩).outcome
        = .exited 1 :=
  (claim_c5 ⟨"abcdef", 0, "t", 0, "1.0", 0, "", "",
      some (serialize (.obj [("statusCode", .num 200), ("body", .str "oops")]))⟩
    [] (serialize (.obj [("statusCode", .num 200), ("body", .str "oops")])) "oops"
    [("statusCode", .num 200), ("body", .str "oops")]
    (by decide) rfl (by rfl) rfl (by rfl) (by rfl) (by rfl)).1

/-- C6: in any run that reaches rendering with a decoded body object
whose success flag is falsy (for instance the claim's example
`{"success": false, "error": "boom"}`), the run prints the failure
marker and then the body as indented JSON truncated to 3000
characters, and the process exits 0 — a business failure is not a
crash. -/
theorem claim_c6 (inp : ScriptInput) (em : List Effect)
    (content bodyStr : String) (fs bfs : List (String × Json))
    (hsec : pyStrip inp.secretStdout ≠ "")
    (hexit : inp.invokeExit = 0)
    (hmeta : metaPrints (pyStrip inp.invokeStdout) = .ok em)
    (hfile : inp.responseFile = some content)
    (hresp : pyLoads content = some (.obj fs))
    (hbody : jLookup fs "body" = some (.str bodyStr))
    (hdec : pyLoads bodyStr = some (.obj bfs))
    (hfail : truthy (jGetD (.obj bfs) "success" .null) = false) :
    (runScript inp).outcome = .exited 0 ∧
    (runScript inp).effects =
      fetchEffects ++ [.print (secretPreviewLine (pyStrip inp.secretStdout))] ++
      invokeEffects (pyStrip inp.secretStdout) inp.timeT inp.timeStr inp.timeEpoch inp.elapsedStr ++
      (em ++ [.print "", .print "--- Response ---", .readFile responsePath,
        .print ("HTTP Status: " ++ pyStr (jGetD (.obj fs) "statusCode" (.str "N/A"))),
        .print "❌ FAILED",
        .print (pyTake 3000 (pyDumpsIndent2 (.obj bfs)))]) := by
  have hr : renderBody (.obj bfs) =
      (["❌ FAILED", pyTake 3000 (pyDumpsIndent2 (.obj bfs))], none) := by
    simp [renderBody, hfail]
  have ha : afterInvoke inp.invokeStdout inp.responseFile =
      (em ++ [.print "", .print "--- Response ---", .readFile responsePath,
        .print ("HTTP Status: " ++ pyStr (jGetD (.obj fs) "statusCode" (.str "N/A"))),
        .print "❌ FAILED",
        .print (pyTake 3000 (pyDumpsIndent2 (.obj bfs)))], .exited 0) := by
    have hb : jGetD (Json.obj fs) "body" (.str "\x7b\x7d") = .str bodyStr := by
      rw [jGetD, jGet, hbody]
    simp only [afterInvoke, hmeta, hfile, hresp, hb, hdec, hr]
    simp
  rw [runScript]
  simp only [if_neg hsec, hexit]
  norm_num
  rw [ha]
  exact ⟨rfl, by simp⟩

/-- Witness for C6 with the response file built from the claim's
example body, whose indented JSON is spelled out. -/
theorem claim_c6_witness :
    truthy (jGetD (.obj [("success", Json.bool false), ("error", Json.str "boom")])
      "success" .null) = false ∧
    pyDumpsIndent2 c6Body = "\x7b\n  \"success\": false,\n  \"error\": \"boom\"\n\x7d" ∧
    (runScript ⟨"abcdef", 0, "t", 0, "1.0", 0, "", "",
      some (serialize (.obj [("statusCode", .num 500), ("body", .str (serialize c6Body))]))⟩).outcome
        = .exited 0 :=
  ⟨by rfl, by rfl,
   (claim_c6 ⟨"abcdef", 0, "t", 0, "1.0", 0, "", "",
      some (serialize (.obj [("statusCode", .num 500), ("body", .str (serialize c6Body))]))⟩
    [] (serialize (.obj [("statusCode", .num 500), ("body", .str (serialize c6Body))]))
    (serialize c6Body)
    [("statusCode", .num 500), ("body", .str (serialize c6Body))]
    [("success", .bool false), ("error", .str "boom")]
    (by decide) rfl (by rfl) rfl (by rfl) (by rfl) (by rfl) (by rfl)).1⟩

/-- C7: both printed-body sites truncate with `[:3000]`: the raw-body
diagnostic prints exactly the first 3000 characters of the body, and
the failure branch prints the first 3000 characters of the indented
JSON; a prefix-take of 3000 cuts a longer string to exactly 3000
characters and leaves a string of at most 3000 characters whole. -/
theorem claim_c7 :
    (∀ s : String, rawBodyPrint s = .print ("Raw body: " ++ pyTake 3000 s)) ∧
    (∀ fs : List (String × Json), truthy (jGetD (.obj fs) "success" .null) = false →
      renderBody (.obj fs) = (["❌ FAILED", pyTake 3000 (pyDumpsIndent2 (.obj fs))], none)) ∧
    (∀ s : String, 3000 < s.length → (pyTake 3000 s).length = 3000) ∧
    (∀ s : String, s.length ≤ 3000 → pyTake 3000 s = s) := by
  refine ⟨fun s => rfl, fun fs h => by simp [renderBody, h], fun s h => ?_, fun s h => ?_⟩
  · show (s.data.take 3000).length = 3000
    have : s.length = s.data.length := rfl
    rw [this] at h
    simp [List.length_take]
    omega
  · show String.mk (s.data.take 3000) = s
    have : s.length = s.data.length := rfl
    rw [this] at h
    rw [List.take_of_length_le h]

/-- Witness for C7: a 3001-character body is cut to exactly 3000
characters, and a short one is kept whole. -/
theorem claim_c7_witness :
    3000 < (String.mk (List.replicate 3001 'a')).length ∧
    (pyTake 3000 (String.mk (List.replicate 3001 'a'))).length = 3000 ∧
    ("ab".length ≤ 3000 ∧ pyTake 3000 "ab" = "ab") := by
  have hlen : 3000 < (String.mk (List.replicate 3001 'a')).length := by
    show 3000 < (List.replicate 3001 'a').length
    rw [List.length_replicate]
    norm_num
  exact ⟨hlen, claim_c7.2.2.1 _ hlen, by norm_num [String.length], claim_c7.2.2.2 "ab" (by norm_num [String.length])⟩

/-- C8: the console output depends on the secret only through its first
five characters: two runs that differ only in the fetched secret, both
non-empty after stripping and agreeing on the first five stripped
characters, print exactly the same lines (in particular the preview
line prints only the five-character prefix, never the full secret). -/
theorem claim_c8 (base : ScriptInput) (s1 s2 : String)
    (h1 : pyStrip s1 ≠ "") (h2 : pyStrip s2 ≠ "")
    (h5 : pyTake 5 (pyStrip s1) = pyTake 5 (pyStrip s2)) :
    printsOf (runScript { base with secretStdout := s1 }) =
    printsOf (runScript { base with secretStdout := s2 }) ∧
    secretPreviewLine (pyStrip s1) = secretPreviewLine (pyStrip s2) := by
  have hpl : secretPreviewLine (pyStrip s1) = secretPreviewLine (pyStrip s2) := by
    simp only [secretPreviewLine, h5]
  refine ⟨?_, hpl⟩
  simp only [runScript]
  rw [if_neg h1, if_neg h2]
  by_cases hinv : base.invokeExit = 0
  · simp only [hinv]
    norm_num
    simp [printsOf, fetchEffects, invokeEffects, List.filterMap_append, hpl]
  · rw [if_pos hinv, if_pos hinv]
    simp [printsOf, fetchEffects, invokeEffects, hpl]

/-- Witness for C8: two secrets sharing the prefix "abcde" produce
identical console output. -/
theorem claim_c8_witness :
    printsOf (runScript { (⟨"", 0, "t", 0, "1.0", 0, "", "", none⟩ : ScriptInput) with
      secretStdout := "abcdexxx" }) =
    printsOf (runScript { (⟨"", 0, "t", 0, "1.0", 0, "", "", none⟩ : ScriptInput) with
      secretStdout := "abcdeyyy" }) :=
  (claim_c8 ⟨"", 0, "t", 0, "1.0", 0, "", "", none⟩ "abcdexxx" "abcdeyyy"
    (by decide) (by decide) (by decide)).1

/-- Rendering a list of well-formed step records, one line each, no
failure. -/
theorem renderList_mkStep (ps : List (String × Option String))
    (hd : ∀ p ∈ ps, ∀ d, p.2 = some d → d ≠ "") :
    renderList renderStepLine (ps.map mkStep) = (ps.map stepLineOf, none) := by
  induction ps with
  | nil => rfl
  | cons p rest ih =>
    have hp : renderStepLine (mkStep p) = .ok (stepLineOf p) := by
      match p with
      | (n, none) => rfl
      | (n, some d) =>
        have hd' : d ≠ "" := hd (n, some d) (by simp) d rfl
        have ht : truthy (Json.str d) = true := by
          simp [truthy]
          exact hd'
        simp [mkStep, renderStepLine, jGetD, jGet, jLookup, ht, pyStr, stepLineOf]
    have ih' := ih (fun q hq => hd q (by simp [hq]))
    simp [renderList, hp, ih']

/-- C9 (amended): for a steps array of step records (names with
optional non-empty details), the rendered steps section is the header
line carrying the count, then one line per step in order, each a
checkmark, the step name, and the detail suffix exactly when a detail
is present; the individual lines carry no index numbers. -/
theorem claim_c9 (ps : List (String × Option String))
    (hd : ∀ p ∈ ps, ∀ d, p.2 = some d → d ≠ "") :
    renderSteps (.arr (ps.map mkStep)) =
      (("   Steps (" ++ toString ps.length ++ "):") :: ps.map stepLineOf, none) := by
  have h := renderList_mkStep ps hd
  simp [renderSteps, h]

/-- Counterexample to C9 as stated: on a success body with the single
step "create tenant", the rendered step line is "     ✅ create tenant",
which carries no 1-based index number (it does not even contain the
character "1"); only the section header carries a count. -/
theorem claim_c9_cex :
    renderBody c9Body =
      (["✅ SUCCESS", "   Tenant: t-1", "", "   Actors:", "", "   Organizations:", "",
        "   Property: None / None — ₦0", "   Payment Method: None (None phases)", "",
        "   Steps (1):", "     ✅ create tenant"], none) ∧
    containsSub "     ✅ create tenant" "1" = false := by
  exact ⟨by rfl, by rfl⟩

/-- Witness for the amended C9 at two concrete steps, one with a
detail. -/
theorem claim_c9_witness :
    (∀ p ∈ [("create tenant", (none : Option String)), ("upload", some "ok")],
      ∀ d, p.2 = some d → d ≠ "") ∧
    renderSteps (.arr ([("create tenant", (none : Option String)), ("upload", some "ok")].map mkStep)) =
      ("   Steps (2):" :: ["     ✅ create tenant", "     ✅ upload — ok"], none) := by
  have hd : ∀ p ∈ [("create tenant", (none : Option String)), ("upload", some "ok")],
      ∀ d, p.2 = some d → d ≠ "" := by decide
  refine ⟨hd, ?_⟩
  have := claim_c9 [("create tenant", (none : Option String)), ("upload", some "ok")] hd
  simpa [stepLineOf] using this

/-- C10: when the AWS CLI exits 0 but its stdout (stripped) is
non-empty and not valid JSON, the run dies with an uncaught JSON-decode
exception (nonzero process exit) and never reads the response file;
by contrast, valid metadata that signals a function-level error only
produces a non-fatal diagnostic. -/
theorem claim_c10 (inp : ScriptInput)
    (hsec : pyStrip inp.secretStdout ≠ "")
    (hexit : inp.invokeExit = 0)
    (hne : pyStrip inp.invokeStdout ≠ "")
    (hbad : pyLoads (pyStrip inp.invokeStdout) = none) :
    (runScript inp).outcome = .crashed "json.decoder.JSONDecodeError" ∧
    ((runScript inp).outcome).code ≠ 0 ∧
    (∀ p, Effect.readFile p ∉ (runScript inp).effects) ∧
    metaPrints (serialize (.obj [("FunctionError", .str "Unhandled")])) =
      .ok [.print "❌ Lambda function error: Unhandled"] := by
  have hm : metaPrints (pyStrip inp.invokeStdout) = .error "json.decoder.JSONDecodeError" := by
    simp only [metaPrints, if_neg hne, hbad]
  have ha : afterInvoke inp.invokeStdout inp.responseFile =
      ([], .crashed "json.decoder.JSONDecodeError") := by
    simp only [afterInvoke, hm]
  rw [runScript]
  simp only [if_neg hsec, hexit]
  norm_num
  rw [ha]
  refine ⟨rfl, by simp [Outcome.code], ?_, by rfl⟩
  intro p
  simp [fetchEffects, invokeEffects]

/-- Witness for C10 with CLI stdout "not json". -/
theorem claim_c10_witness :
    (runScript ⟨"abcdef", 0, "t", 0, "1.0", 0, "not json", "", some "\x7b\x7d"⟩).outcome
      = .crashed "json.decoder.JSONDecodeError" :=
  (claim_c10 ⟨"abcdef", 0, "t", 0, "1.0", 0, "not json", "", some "\x7b\x7d"⟩
    (by decide) rfl (by decide) (by rfl)).1
